import Mathlib

/-!
Verification development for the CIHI knee/hip wait-times dashboard.

The Python source (`code/extract_data.py`, `code/visualise_data.py`,
`app.py`) is shallowly embedded below.  Spreadsheet cells are modelled by
`Cell` (a number, a raw string, or a null/NaN); pandas DataFrames by
`DataFrame` (column names plus row-major cells); workbook files by
`Workbook`; the asset directory by a `FileSystem` map from filenames to
workbooks.  Numeric values are modelled as integers: the claims under
study only concern values passing through unchanged, never float
arithmetic.  Python exceptions are modelled by `Except AppError`, where
`dataSource` stands for `FileNotFoundError`, `sheetFormat` for the
sheet-missing error raised by the spreadsheet reader, and `keyError` for
a missing-column/missing-key `KeyError`.
-/

namespace CIHI

/-- A spreadsheet / DataFrame cell: a number, a string, or null (NaN). -/
inductive Cell where
  | num (v : Int)
  | str (s : String)
  | null
deriving DecidableEq, Repr

def Cell.isNull : Cell → Bool
  | .null => true
  | _ => false

def Cell.isStr : Cell → Bool
  | .str _ => true
  | _ => false

def charDigit (c : Char) : Option Nat :=
  if 48 ≤ c.toNat ∧ c.toNat ≤ 57 then some (c.toNat - 48) else none

def natOfDigitsAux : Nat → List Char → Option Nat
  | acc, [] => some acc
  | acc, c :: cs =>
    match charDigit c with
    | some d => natOfDigitsAux (acc * 10 + d) cs
    | none => none

def natOfDigits : List Char → Option Nat
  | [] => none
  | cs => natOfDigitsAux 0 cs

/-- Numeric parsing of a raw string, as `pd.to_numeric` does on text: an
optional leading minus sign followed by decimal digits. -/
def parseNum (s : String) : Option Int :=
  match s.data with
  | [] => none
  | '-' :: rest => (natOfDigits rest).map (fun n => -(n : Int))
  | ds => (natOfDigits ds).map (fun n => (n : Int))

/-- `pd.to_numeric(cell, errors='coerce')` on a single cell: numbers pass
through, parsable strings become numbers, anything else becomes null. -/
def toNumericCell : Cell → Cell
  | .num v => .num v
  | .str s =>
    match parseNum s with
    | some v => .num v
    | none => .null
  | .null => .null

/-- A pandas DataFrame: column names plus row-major cells. -/
structure DataFrame where
  cols : List String
  rows : List (List Cell)
deriving DecidableEq, Repr

def emptyFrame : DataFrame := { cols := [], rows := [] }

/-- Cell of a row at column position `j` (missing positions read as NaN,
matching pandas padding of short rows). -/
def getCell (r : List Cell) (j : Nat) : Cell := r.getD j Cell.null

/-- Position of a named column, as pandas column lookup. -/
def colIdx (df : DataFrame) (name : String) : Option Nat :=
  df.cols.findIdx? (fun c => c == name)

/-- `df.dropna(how='all', axis=0)`: drop rows whose cells are all null. -/
def dropRowsAllNull (df : DataFrame) : DataFrame :=
  { df with rows := df.rows.filter (fun r => !(r.all Cell.isNull)) }

def colAllNull (rows : List (List Cell)) (j : Nat) : Bool :=
  rows.all (fun r => (getCell r j).isNull)

def keepCols (df : DataFrame) : List Nat :=
  (List.range df.cols.length).filter (fun j => !(colAllNull df.rows j))

/-- `df.dropna(how='all', axis=1)`: drop columns whose cells are all null
(over zero rows, every column counts as all-null, as in pandas). -/
def dropColsAllNull (df : DataFrame) : DataFrame :=
  { cols := (keepCols df).map (fun j => df.cols.getD j ""),
    rows := df.rows.map (fun r => (keepCols df).map (fun j => getCell r j)) }

/-- A column has pandas object dtype when it holds at least one raw string. -/
def colIsObject (rows : List (List Cell)) (j : Nat) : Bool :=
  rows.any (fun r => (getCell r j).isStr)

/-- The loop `for col in select_dtypes(['object']).columns:
cleaned_df[col] = pd.to_numeric(cleaned_df[col], errors='coerce')`. -/
def coerceObjectCols (df : DataFrame) : DataFrame :=
  { df with
    rows := df.rows.map (fun r =>
      (List.range df.cols.length).map (fun j =>
        if colIsObject df.rows j then toNumericCell (getCell r j) else getCell r j)) }

/-- `DataExtractor._clean_wait_times_data`. -/
def cleanWaitTimesData (df : DataFrame) : DataFrame :=
  coerceObjectCols (dropColsAllNull (dropRowsAllNull df))

/-- `DataExtractor._clean_spending_data` (same steps as the wait-times pass). -/
def cleanSpendingData (df : DataFrame) : DataFrame :=
  coerceObjectCols (dropColsAllNull (dropRowsAllNull df))

/-- One sheet of a workbook: the raw cell grid. -/
structure RawSheet where
  grid : List (List Cell)
deriving DecidableEq, Repr

/-- An XLSX workbook: sheet display names and their grids, in order. -/
structure Workbook where
  names : List String
  sheets : List RawSheet
deriving DecidableEq, Repr

/-- The asset directory: filenames to workbooks. -/
abbrev FileSystem := String → Option Workbook

/-- Python exceptions relevant to the pipeline: `dataSource` models
`FileNotFoundError`, `sheetFormat` the missing-sheet error from the
spreadsheet engine, `keyError` a pandas `KeyError`. -/
inductive AppError where
  | dataSource (msg : String)
  | sheetFormat (msg : String)
  | keyError (msg : String)
deriving DecidableEq, Repr

def AppError.msg : AppError → String
  | .dataSource m => m
  | .sheetFormat m => m
  | .keyError m => m

/-- `na_values=['NA', 'N/A', '']`: those raw strings read as NaN. -/
def naCell : Cell → Cell
  | .str s => if s = "NA" || s = "N/A" || s = "" then .null else .str s
  | c => c

/-- Column name derived from a header cell. -/
def headerName : Cell → String
  | .str s => s
  | .num v => toString v
  | .null => ""

/-- Reading one sheet with a header-row offset and an optional
`usecols=range(k)` restriction, as `pd.read_excel` does. -/
def readSheet (s : RawSheet) (header : Nat) (usecols : Option Nat) : DataFrame :=
  let grid : List (List Cell) :=
    match usecols with
    | some k => s.grid.map (fun r => r.take k)
    | none => s.grid
  { cols := (grid.getD header []).map headerName,
    rows := (grid.drop (header + 1)).map (fun r => r.map naCell) }

/-- `DataExtractor.read_excel_file`.  With a (truthy) sheet name the named
sheet is read; otherwise pandas defaults to the first sheet.  A missing
file fails with the file-not-found error; a missing sheet with the
sheet-format error. -/
def readExcelFile (fs : FileSystem) (filename : String) (sheetName : Option String)
    (header : Nat) (usecols : Option Nat) : Except AppError DataFrame :=
  match fs filename with
  | none => .error (.dataSource ("File not found: " ++ filename))
  | some wb =>
    match sheetName with
    | some nm =>
      if nm = "" then
        match wb.sheets with
        | [] => .error (.sheetFormat ("no sheets in " ++ filename))
        | s :: _ => .ok (readSheet s header usecols)
      else
        match wb.names.findIdx? (fun c => c == nm) with
        | none => .error (.sheetFormat ("Worksheet named " ++ nm ++ " not found"))
        | some i => .ok (readSheet (wb.sheets.getD i { grid := [] }) header usecols)
    | none =>
      match wb.sheets with
      | [] => .error (.sheetFormat ("no sheets in " ++ filename))
      | s :: _ => .ok (readSheet s header usecols)

def waitTimesFile : String :=
  "wait-times-priority-procedures-in-canada-2024-data-tables-en.xlsx"

def hospitalSpendingFile : String :=
  "hospital-spending-series-a-2005-2022-data-tables-en.xlsx"

def waitSheetName : String := "Wait times 2008 to 2023"

/-- Python dict lookup on the procedures mapping. -/
def lookupTable (m : List (String × DataFrame)) (k : String) : Option DataFrame :=
  (m.find? (fun p => p.1 == k)).map (fun p => p.2)

/-- `DataExtractor.extract_wait_times`: read the fixed sheet (header row 2,
first 8 columns), partition by `Indicator`, clean each partition. -/
def extractWaitTimes (fs : FileSystem) : Except AppError (List (String × DataFrame)) :=
  match readExcelFile fs waitTimesFile (some waitSheetName) 2 (some 8) with
  | .error e => .error e
  | .ok df =>
    match colIdx df ("Indicator") with
    | none => .error (.keyError ("Indicator"))
    | some i =>
      let hip := { df with
        rows := df.rows.filter (fun r => getCell r i == Cell.str ("Hip Replacement")) }
      let knee := { df with
        rows := df.rows.filter (fun r => getCell r i == Cell.str ("Knee Replacement")) }
      .ok [("hip_replacement", cleanWaitTimesData hip),
           ("knee_replacement", cleanWaitTimesData knee)]

/-- `DataExtractor.extract_hospital_spending`: read the spending workbook
with no sheet name (pandas default: the first sheet, header row 0, all
columns), then apply the spending cleaning pass. -/
def extractHospitalSpending (fs : FileSystem) : Except AppError DataFrame :=
  match readExcelFile fs hospitalSpendingFile none 0 none with
  | .error e => .error e
  | .ok df => .ok (cleanSpendingData df)

/-- First non-null cell of a list, as `groupby(...).first` / the pandas
string aggregator `'first'` (which skips NA values). -/
def firstNonNull : List Cell → Option Cell
  | [] => none
  | c :: cs => if c.isNull then firstNonNull cs else some c

def cellLt : Cell → Cell → Bool
  | .null, .null => false
  | .null, _ => true
  | _, .null => false
  | .num a, .num b => decide (a < b)
  | .num _, .str _ => true
  | .str _, .num _ => false
  | .str a, .str b => decide (a < b)

def cellLe (a b : Cell) : Bool := a == b || cellLt a b

def pairLe (a b : Cell × Cell) : Bool :=
  cellLt a.1 b.1 || (a.1 == b.1 && cellLe a.2 b.2)

def insertLe {α : Type} (le : α → α → Bool) (a : α) : List α → List α
  | [] => [a]
  | b :: bs => if le a b then a :: b :: bs else b :: insertLe le a bs

def sortLe {α : Type} (le : α → α → Bool) : List α → List α
  | [] => []
  | a :: as => insertLe le a (sortLe le as)

/-- Row predicate: the row's index cells and metric cell match the given
pivot key, as grouping by `[region, year, metric]` does. -/
def matchKey (i1 i2 ic : Nat) (k1 k2 m : Cell) (r : List Cell) : Bool :=
  getCell r i1 == k1 && getCell r i2 == k2 && getCell r ic == m

/-- Aggregated cell of one pivot group: the first non-null value among the
rows matching the full (region, year, metric) key, in original row order;
`none` when every matching value is null (pandas then drops the group). -/
def pivotCell (rows : List (List Cell)) (iv i1 i2 ic : Nat)
    (k1 k2 m : Cell) : Option Cell :=
  firstNonNull ((rows.filter (matchKey i1 i2 ic k1 k2 m)).map (fun r => getCell r iv))

/-- Group keys occurring in the data with no null component (pandas
`groupby` drops groups with a NaN key). -/
def candTriples (rows : List (List Cell)) (i1 i2 ic : Nat) :
    List (Cell × Cell × Cell) :=
  (rows.filter (fun r =>
      !(getCell r i1).isNull && !(getCell r i2).isNull && !(getCell r ic).isNull)).map
    (fun r => (getCell r i1, getCell r i2, getCell r ic))

/-- Distinct group keys whose aggregated value is non-null (all-NaN groups
are dropped by `pivot_table`'s `dropna`). -/
def keptTriples (rows : List (List Cell)) (iv i1 i2 ic : Nat) :
    List (Cell × Cell × Cell) :=
  (candTriples rows i1 i2 ic).dedup.filter
    (fun t => (pivotCell rows iv i1 i2 ic t.1 t.2.1 t.2.2).isSome)

/-- Sorted distinct metric values surviving the pivot: these become the
wide table's metric columns. -/
def metricCells (rows : List (List Cell)) (iv i1 i2 ic : Nat) : List Cell :=
  sortLe cellLe ((keptTriples rows iv i1 i2 ic).map (fun t => t.2.2)).dedup

/-- Sorted distinct (region, year) keys surviving the pivot: these become
the wide table's rows. -/
def rowKeys (rows : List (List Cell)) (iv i1 i2 ic : Nat) : List (Cell × Cell) :=
  sortLe pairLe ((keptTriples rows iv i1 i2 ic).map (fun t => (t.1, t.2.1))).dedup

/-- The wide table built by
`pd.pivot_table(..., aggfunc='first').reset_index()`: the two index
columns first, then one column per surviving metric (sorted), one row per
surviving (region, year) key (sorted), cells filled from the group
aggregate or null when the group is absent. -/
def pivotBuild (rows : List (List Cell)) (iv i1 i2 ic : Nat)
    (n1 n2 : String) : DataFrame :=
  let ms := metricCells rows iv i1 i2 ic
  { cols := [n1, n2] ++ ms.map headerName,
    rows := (rowKeys rows iv i1 i2 ic).map (fun k =>
      [k.1, k.2] ++ ms.map (fun m =>
        (pivotCell rows iv i1 i2 ic k.1 k.2 m).getD Cell.null)) }

/-- `pd.pivot_table(df, values=v, index=[n1, n2], columns=[cn],
aggfunc='first').reset_index()`, failing with a `KeyError` when a named
column is missing from the frame. -/
def pivotTableFirst (df : DataFrame) (v n1 n2 cn : String) :
    Except AppError DataFrame :=
  match colIdx df v with
  | none => .error (.keyError v)
  | some iv =>
    match colIdx df n1 with
    | none => .error (.keyError n1)
    | some i1 =>
      match colIdx df n2 with
      | none => .error (.keyError n2)
      | some i2 =>
        match colIdx df cn with
        | none => .error (.keyError cn)
        | some ic => .ok (pivotBuild df.rows iv i1 i2 ic n1 n2)

/-- The row filter `df[df['Reporting level'] == 'Provincial']`. -/
def provincialRows (df : DataFrame) (ir : Nat) : List (List Cell) :=
  df.rows.filter (fun r => getCell r ir == Cell.str ("Provincial"))

/-- `WaitTimesVisualizer.prepare_provincial_data`. -/
def prepareProvincialData (data : List (String × DataFrame)) (procedure : String) :
    Except AppError DataFrame :=
  match lookupTable data procedure with
  | none => .error (.keyError procedure)
  | some df =>
    match colIdx df ("Reporting level") with
    | none => .error (.keyError ("Reporting level"))
    | some ir =>
      pivotTableFirst { df with rows := provincialRows df ir }
        ("Indicator result") ("Province/territory") ("Data year") ("Metric")

/-- The extract-then-pivot pipeline as run by the dashboard for one
selected procedure. -/
def runPipeline (fs : FileSystem) (procedure : String) : Except AppError DataFrame :=
  match extractWaitTimes fs with
  | .error e => .error e
  | .ok m => prepareProvincialData m procedure

/-- `app.main`: run the pipeline; any error is caught at the top level and
rendered as the single message `"An error occurred: " ++ str(e)`. -/
def appMain (fs : FileSystem) (procedure : String) : Sum String DataFrame :=
  match runPipeline fs procedure with
  | .error e => Sum.inl ("An error occurred: " ++ e.msg)
  | .ok w => Sum.inr w

/-- Lookup in the produced wide table: the row whose two leading cells are
the (region, year) key, then the cell under the named column. -/
def wideLookup (w : DataFrame) (k1 k2 : Cell) (name : String) : Option Cell :=
  match w.rows.find? (fun r => getCell r 0 == k1 && getCell r 1 == k2) with
  | none => none
  | some r =>
    match (w.cols.zip r).find? (fun p => p.1 == name) with
    | none => none
    | some p => some p.2

/-- The closed metric set from `WaitTimesVisualizer.__init__`. -/
def metrics : List String :=
  ["% Meeting Benchmark", "50th Percentile", "90th Percentile", "Volume"]

instance instDecEqExcept {ε α : Type} [DecidableEq ε] [DecidableEq α] :
    DecidableEq (Except ε α) :=
  fun a b =>
    match a, b with
    | .ok x, .ok y =>
      match decEq x y with
      | isTrue h => isTrue (congrArg Except.ok h)
      | isFalse h => isFalse (fun hc => h (Except.ok.inj hc))
    | .error x, .error y =>
      match decEq x y with
      | isTrue h => isTrue (congrArg Except.error h)
      | isFalse h => isFalse (fun hc => h (Except.error.inj hc))
    | .ok _, .error _ => isFalse (fun hc => Except.noConfusion hc)
    | .error _, .ok _ => isFalse (fun hc => Except.noConfusion hc)

/-! ### Object store model

Python DataFrames are heap objects; in-place pandas operations
(`inplace=True`, column assignment) mutate one object.  The store model
makes the object discipline of the source explicit: `.copy()` allocates a
fresh reference and every in-place step writes to that fresh reference,
so the caller's object is untouched. -/

structure Store where
  heap : List DataFrame
deriving DecidableEq, Repr

def readRef (σ : Store) (r : Nat) : DataFrame := σ.heap.getD r emptyFrame

def allocRef (σ : Store) (d : DataFrame) : Store × Nat :=
  ({ heap := σ.heap ++ [d] }, σ.heap.length)

def writeRef (σ : Store) (r : Nat) (d : DataFrame) : Store :=
  { heap := σ.heap.set r d }

/-- `_clean_wait_times_data` on a DataFrame reference: copy, then the two
in-place `dropna` calls and the column-coercion loop, all on the copy. -/
def cleanWaitTimesDataSt (σ : Store) (r : Nat) : Store × Nat :=
  let a := allocRef σ (readRef σ r)
  let σ2 := writeRef a.1 a.2 (dropRowsAllNull (readRef a.1 a.2))
  let σ3 := writeRef σ2 a.2 (dropColsAllNull (readRef σ2 a.2))
  let σ4 := writeRef σ3 a.2 (coerceObjectCols (readRef σ3 a.2))
  (σ4, a.2)

/-- `_clean_spending_data` on a DataFrame reference (same steps). -/
def cleanSpendingDataSt (σ : Store) (r : Nat) : Store × Nat :=
  let a := allocRef σ (readRef σ r)
  let σ2 := writeRef a.1 a.2 (dropRowsAllNull (readRef a.1 a.2))
  let σ3 := writeRef σ2 a.2 (dropColsAllNull (readRef σ2 a.2))
  let σ4 := writeRef σ3 a.2 (coerceObjectCols (readRef σ3 a.2))
  (σ4, a.2)

/-- `prepare_provincial_data` on a DataFrame reference: the filtered frame
is `.copy()`-ed into a fresh object and `pivot_table` returns a fresh
object; the input reference is never written. -/
def prepareProvincialDataSt (σ : Store) (r : Nat) : Store × Except AppError Nat :=
  match colIdx (readRef σ r) ("Reporting level") with
  | none => (σ, .error (.keyError ("Reporting level")))
  | some ir =>
    let a := allocRef σ
      { readRef σ r with rows := provincialRows (readRef σ r) ir }
    match pivotTableFirst (readRef a.1 a.2)
        ("Indicator result") ("Province/territory") ("Data year") ("Metric") with
    | .error e => (a.1, .error e)
    | .ok w =>
      let b := allocRef a.1 w
      (b.1, .ok b.2)

/-! ### Concrete fixtures -/

/-- Header row of the wait-times sheet (8 columns, as in the workbook). -/
def wtHeader : List Cell :=
  [.str ("Indicator"), .str ("Reporting level"), .str ("Province/territory"),
   .str ("Data year"), .str ("Metric"), .str ("Indicator result"),
   .str ("Unit of measurement"), .str ("Note")]

/-- One conforming hip-replacement data row. -/
def wtRow1 : List Cell :=
  [.str ("Hip Replacement"), .str ("Provincial"), .str ("Ontario"),
   .num 2020, .str ("Volume"), .num 100, .str ("Days"), .null]

/-- A wait-times workbook in the expected layout with one data row. -/
def wbC1 : Workbook :=
  { names := [waitSheetName], sheets := [{ grid := [[], [], wtHeader, wtRow1] }] }

def fsC1 : FileSystem := fun n => if n = waitTimesFile then some wbC1 else none

/-- A long table with duplicate (region, year, metric) entries whose first
duplicate carries a null value. -/
def dupTable : DataFrame :=
  { cols := ["Indicator", "Reporting level", "Province/territory",
             "Data year", "Metric", "Indicator result"],
    rows := [[.str ("Hip Replacement"), .str ("Provincial"), .str ("Ontario"),
              .num 2020, .str ("Volume"), .null],
             [.str ("Hip Replacement"), .str ("Provincial"), .str ("Ontario"),
              .num 2020, .str ("Volume"), .num 200]] }

/-- The spec's duplicate scenario: values 100 then 200. -/
def dupTable100 : DataFrame :=
  { cols := ["Indicator", "Reporting level", "Province/territory",
             "Data year", "Metric", "Indicator result"],
    rows := [[.str ("Hip Replacement"), .str ("Provincial"), .str ("Ontario"),
              .num 2020, .str ("Volume"), .num 100],
             [.str ("Hip Replacement"), .str ("Provincial"), .str ("Ontario"),
              .num 2020, .str ("Volume"), .num 200]] }

/-- A long table whose only record carries a metric outside the closed set. -/
def bogusTable : DataFrame :=
  { cols := ["Indicator", "Reporting level", "Province/territory",
             "Data year", "Metric", "Indicator result"],
    rows := [[.str ("Hip Replacement"), .str ("Provincial"), .str ("Ontario"),
              .num 2020, .str ("Bogus Metric"), .num 5]] }

/-- Two regions, each with one metric of the closed set. -/
def twoTable : DataFrame :=
  { cols := ["Indicator", "Reporting level", "Province/territory",
             "Data year", "Metric", "Indicator result"],
    rows := [[.str ("Hip Replacement"), .str ("Provincial"), .str ("Ontario"),
              .num 2020, .str ("Volume"), .num 5],
             [.str ("Hip Replacement"), .str ("Provincial"), .str ("Quebec"),
              .num 2020, .str ("50th Percentile"), .num 7]] }

/-- Wait-times workbook whose sheet has a header but zero data rows. -/
def wbC8 : Workbook :=
  { names := [waitSheetName], sheets := [{ grid := [[], [], wtHeader] }] }

def fsC8 : FileSystem := fun n => if n = waitTimesFile then some wbC8 else none

/-- A one-column spending sheet holding the single number `k`. -/
def spendSheet (k : Int) : RawSheet := { grid := [[.str ("Col")], [.num k]] }

/-- A 14-sheet spending workbook (sheet indices 0..13 all in range). -/
def wbSpendA : Workbook :=
  { names := ["S0", "S1", "S2", "S3", "S4", "S5", "S6",
              "S7", "S8", "S9", "S10", "S11", "S12", "S13"],
    sheets := [spendSheet 7, spendSheet 1, spendSheet 102, spendSheet 103,
               spendSheet 104, spendSheet 105, spendSheet 106, spendSheet 107,
               spendSheet 108, spendSheet 109, spendSheet 110, spendSheet 111,
               spendSheet 112, spendSheet 113] }

/-- Same first two sheets as `wbSpendA`, different sheets at indices 2..13. -/
def wbSpendB : Workbook :=
  { names := ["S0", "S1", "S2", "S3", "S4", "S5", "S6",
              "S7", "S8", "S9", "S10", "S11", "S12", "S13"],
    sheets := [spendSheet 7, spendSheet 1, spendSheet 202, spendSheet 203,
               spendSheet 204, spendSheet 205, spendSheet 206, spendSheet 207,
               spendSheet 208, spendSheet 209, spendSheet 210, spendSheet 211,
               spendSheet 212, spendSheet 213] }

def fsSpendA : FileSystem :=
  fun n => if n = hospitalSpendingFile then some wbSpendA else none

def fsSpendB : FileSystem :=
  fun n => if n = hospitalSpendingFile then some wbSpendB else none

/-- A workbook that does not contain the wait-times sheet. -/
def wbNoSheet : Workbook := { names := ["Other"], sheets := [{ grid := [] }] }

def fsNoSheet : FileSystem := fun n => if n = waitTimesFile then some wbNoSheet else none

/-- An empty asset directory. -/
def fsNone : FileSystem := fun _ => none

/-! ### Synthetic long records for the round-trip property -/

structure SynthRec where
  region : String
  year : Int
  metric : String
  value : Int
deriving DecidableEq, Repr

def trip (t : SynthRec) : String × Int × String := (t.region, t.year, t.metric)

def synthRow (t : SynthRec) : List Cell :=
  [.str ("Hip Replacement"), .str ("Provincial"), .str t.region,
   .num t.year, .str t.metric, .num t.value]

def synthCols : List String :=
  ["Indicator", "Reporting level", "Province/territory",
   "Data year", "Metric", "Indicator result"]

/-- A synthetic Provincial long table built from records. -/
def synthTable (l : List SynthRec) : DataFrame :=
  { cols := synthCols, rows := l.map synthRow }

/-! ### Helper lemmas -/

theorem perm_insertLe {α : Type} (le : α → α → Bool) (x : α) :
    ∀ l : List α, List.Perm (insertLe le x l) (x :: l)
  | [] => List.Perm.refl _
  | b :: bs => by
    simp only [insertLe]
    split
    · exact List.Perm.refl _
    · exact List.Perm.trans (List.Perm.cons b (perm_insertLe le x bs))
        (List.Perm.swap x b bs)

theorem perm_sortLe {α : Type} (le : α → α → Bool) :
    ∀ l : List α, List.Perm (sortLe le l) l
  | [] => List.Perm.refl _
  | a :: as =>
    List.Perm.trans (perm_insertLe le a (sortLe le as))
      (List.Perm.cons a (perm_sortLe le as))

theorem mem_sortLe {α : Type} {le : α → α → Bool} {a : α} {l : List α} :
    a ∈ sortLe le l ↔ a ∈ l :=
  (perm_sortLe le l).mem_iff

theorem nodup_sortLe {α : Type} {le : α → α → Bool} {l : List α}
    (h : l.Nodup) : (sortLe le l).Nodup :=
  ((perm_sortLe le l).nodup_iff).mpr h

theorem keptTriples_subset_cand {rows : List (List Cell)} {iv i1 i2 ic : Nat}
    {t : Cell × Cell × Cell} (h : t ∈ keptTriples rows iv i1 i2 ic) :
    t ∈ candTriples rows i1 i2 ic :=
  List.mem_dedup.mp (List.mem_filter.mp h).1

theorem keptTriples_isSome {rows : List (List Cell)} {iv i1 i2 ic : Nat}
    {t : Cell × Cell × Cell} (h : t ∈ keptTriples rows iv i1 i2 ic) :
    (pivotCell rows iv i1 i2 ic t.1 t.2.1 t.2.2).isSome = true :=
  (List.mem_filter.mp h).2

theorem mem_metricCells_iff {rows : List (List Cell)} {iv i1 i2 ic : Nat}
    {m : Cell} :
    m ∈ metricCells rows iv i1 i2 ic ↔
      ∃ t ∈ keptTriples rows iv i1 i2 ic, t.2.2 = m := by
  simp [metricCells, mem_sortLe, List.mem_dedup]

theorem mem_rowKeys_iff {rows : List (List Cell)} {iv i1 i2 ic : Nat}
    {p : Cell × Cell} :
    p ∈ rowKeys rows iv i1 i2 ic ↔
      ∃ t ∈ keptTriples rows iv i1 i2 ic, (t.1, t.2.1) = p := by
  simp [rowKeys, mem_sortLe, List.mem_dedup]

theorem nodup_rowKeys (rows : List (List Cell)) (iv i1 i2 ic : Nat) :
    (rowKeys rows iv i1 i2 ic).Nodup :=
  nodup_sortLe (List.nodup_dedup _)

theorem find?_pivotRow (ms : List Cell) (cf : Cell × Cell → Cell → Cell)
    (k1 k2 : Cell) :
    ∀ {ks : List (Cell × Cell)}, (k1, k2) ∈ ks →
      (ks.map (fun k => [k.1, k.2] ++ ms.map (cf k))).find?
          (fun r => getCell r 0 == k1 && getCell r 1 == k2)
        = some ([k1, k2] ++ ms.map (cf (k1, k2)))
  | [], h => absurd h (List.not_mem_nil _)
  | q :: ks, h => by
    by_cases hq : q = (k1, k2)
    · subst hq
      simp [List.find?, getCell]
    · have ht : ((getCell ([q.1, q.2] ++ ms.map (cf q)) 0 == k1 &&
          getCell ([q.1, q.2] ++ ms.map (cf q)) 1 == k2) = false) := by
        have hne : ¬ (q.1 = k1 ∧ q.2 = k2) := by
          intro hc
          exact hq (Prod.ext hc.1 hc.2)
        simp only [getCell, List.cons_append, List.getD]
        simp [beq_iff_eq]
        intro h1
        intro h2
        exact hne ⟨h1, h2⟩
      have hmem : (k1, k2) ∈ ks := by
        rcases List.mem_cons.mp h with h1 | h1
        · exact absurd h1.symm hq
        · exact h1
      simp only [List.map_cons, List.find?, ht]
      exact find?_pivotRow ms cf k1 k2 hmem

theorem countP_pivotRow (ms : List Cell) (cf : Cell × Cell → Cell → Cell)
    (k1 k2 : Cell) :
    ∀ {ks : List (Cell × Cell)}, ks.Nodup →
      (ks.map (fun k => [k.1, k.2] ++ ms.map (cf k))).countP
          (fun r => getCell r 0 == k1 && getCell r 1 == k2)
        = if (k1, k2) ∈ ks then 1 else 0
  | [], _ => by simp
  | q :: ks, hnd => by
    have hrec := countP_pivotRow ms cf k1 k2 (List.Nodup.of_cons hnd)
    by_cases hq : q = (k1, k2)
    · have hnotin : (k1, k2) ∉ ks := by
        rw [← hq]
        exact (List.nodup_cons.mp hnd).1
      subst hq
      simp only [List.map_cons, List.countP_cons, hrec, if_neg hnotin]
      rw [if_pos (List.mem_cons_self _ _)]
      simp [getCell]
    · have ht : ((getCell ([q.1, q.2] ++ ms.map (cf q)) 0 == k1 &&
          getCell ([q.1, q.2] ++ ms.map (cf q)) 1 == k2) = false) := by
        have hne : ¬ (q.1 = k1 ∧ q.2 = k2) := by
          intro hc
          exact hq (Prod.ext hc.1 hc.2)
        simp only [getCell, List.cons_append, List.getD]
        simp [beq_iff_eq]
        intro h1
        intro h2
        exact hne ⟨h1, h2⟩
      simp only [List.map_cons, List.countP_cons, ht, hrec]
      have hiff : ((k1, k2) ∈ q :: ks) ↔ ((k1, k2) ∈ ks) := by
        simp [List.mem_cons]
        intro hc
        exact absurd hc.symm hq
      by_cases hin : (k1, k2) ∈ ks
      · rw [if_pos hin, if_pos (hiff.mpr hin)]
        simp
      · rw [if_neg hin, if_neg (fun hc => hin (hiff.mp hc))]
        simp

theorem find?_colStr {vf : Cell → Cell} {s : String} :
    ∀ {ms : List Cell}, (∀ a ∈ ms, Cell.isStr a = true) →
      Cell.str s ∈ ms →
      (ms.map (fun m => (headerName m, vf m))).find? (fun p => p.1 == s)
        = some (s, vf (Cell.str s))
  | [], _, hmem => absurd hmem (List.not_mem_nil _)
  | a :: ms, hstr, hmem => by
    by_cases ht : headerName a = s
    · have ha : a = Cell.str s := by
        cases a with
        | str t => rw [headerName] at ht; rw [ht]
        | num v => exact absurd (hstr _ (List.mem_cons_self _ _)) (by simp [Cell.isStr])
        | null => exact absurd (hstr _ (List.mem_cons_self _ _)) (by simp [Cell.isStr])
      subst ha
      simp [List.find?, headerName]
    · have hmem2 : Cell.str s ∈ ms := by
        rcases List.mem_cons.mp hmem with h1 | h1
        · exact absurd (by rw [← h1]; rfl) ht
        · exact h1
      have ht2 : ((headerName a == s) = false) := by simp [ht]
      simp only [List.map_cons, List.find?, ht2]
      exact find?_colStr (fun b hb => hstr b (List.mem_cons_of_mem _ hb)) hmem2

theorem metricCells_isStr {rows : List (List Cell)} {iv i1 i2 ic : Nat}
    (hstr : ∀ t ∈ keptTriples rows iv i1 i2 ic, Cell.isStr t.2.2 = true) :
    ∀ a ∈ metricCells rows iv i1 i2 ic, Cell.isStr a = true := by
  intro a ha
  obtain ⟨t, ht, hta⟩ := mem_metricCells_iff.mp ha
  rw [← hta]
  exact hstr t ht

/-- Looking up a (region, year) key and a metric column in the wide table
built by the pivot step returns exactly the group's aggregated cell. -/
theorem wideLookup_pivotBuild (rows : List (List Cell)) (iv i1 i2 ic : Nat)
    (n1 n2 : String) (k1 k2 : Cell) (s : String)
    (hk : (k1, k2) ∈ rowKeys rows iv i1 i2 ic)
    (hms : Cell.str s ∈ metricCells rows iv i1 i2 ic)
    (hstr : ∀ t ∈ keptTriples rows iv i1 i2 ic, Cell.isStr t.2.2 = true)
    (hn1 : ¬ n1 = s) (hn2 : ¬ n2 = s) :
    wideLookup (pivotBuild rows iv i1 i2 ic n1 n2) k1 k2 s
      = some ((pivotCell rows iv i1 i2 ic k1 k2 (Cell.str s)).getD Cell.null) := by
  have hrow := find?_pivotRow (metricCells rows iv i1 i2 ic)
    (fun k m => (pivotCell rows iv i1 i2 ic k.1 k.2 m).getD Cell.null) k1 k2 hk
  have e1 : ((n1 == s) = false) := by simp [hn1]
  have e2 : ((n2 == s) = false) := by simp [hn2]
  simp only [wideLookup, pivotBuild]
  rw [hrow]
  simp only [List.cons_append, List.nil_append, List.zip_cons_cons]
  rw [List.zip_map']
  simp only [List.find?, e1, e2]
  rw [find?_colStr (metricCells_isStr hstr) hms]

/-- With the five schema columns present, the pivot step succeeds and
returns exactly the wide table built from the Provincial-filtered rows. -/
theorem prepare_eq_pivotBuild
    (data : List (String × DataFrame)) (procedure : String) (df : DataFrame)
    (ir iv i1 i2 ic : Nat)
    (hfind : lookupTable data procedure = some df)
    (hir : colIdx df ("Reporting level") = some ir)
    (hiv : colIdx df ("Indicator result") = some iv)
    (hi1 : colIdx df ("Province/territory") = some i1)
    (hi2 : colIdx df ("Data year") = some i2)
    (hic : colIdx df ("Metric") = some ic) :
    prepareProvincialData data procedure =
      Except.ok (pivotBuild (provincialRows df ir) iv i1 i2 ic
        ("Province/territory") ("Data year")) := by
  have hiv2 : colIdx { df with rows := provincialRows df ir } ("Indicator result")
      = some iv := hiv
  have hi12 : colIdx { df with rows := provincialRows df ir } ("Province/territory")
      = some i1 := hi1
  have hi22 : colIdx { df with rows := provincialRows df ir } ("Data year")
      = some i2 := hi2
  have hic2 : colIdx { df with rows := provincialRows df ir } ("Metric")
      = some ic := hic
  simp only [prepareProvincialData, hfind, hir, pivotTableFirst,
    hiv2, hi12, hi22, hic2]

theorem provincialRows_synth (l : List SynthRec) :
    provincialRows (synthTable l) 1 = l.map synthRow := by
  apply List.filter_eq_self.mpr
  intro r hr
  obtain ⟨t, _, hteq⟩ := List.mem_map.mp hr
  rw [← hteq]
  rfl

theorem matchKey_synth (t u : SynthRec) :
    matchKey 2 3 4 (Cell.str t.region) (Cell.num t.year) (Cell.str t.metric)
        (synthRow u)
      = decide (trip u = trip t) := by
  rw [Bool.eq_iff_iff]
  simp [matchKey, synthRow, getCell, trip, Prod.ext_iff, and_assoc]

theorem filter_trip_single {t : SynthRec} :
    ∀ {l : List SynthRec}, t ∈ l →
      l.Pairwise (fun a b => trip a ≠ trip b) →
      l.filter (fun u => decide (trip u = trip t)) = [t]
  | [], hmem, _ => absurd hmem (List.not_mem_nil _)
  | a :: l, hmem, hpw => by
    rcases List.mem_cons.mp hmem with h1 | h1
    · subst h1
      have hnil : l.filter (fun u => decide (trip u = trip t)) = [] := by
        apply List.filter_eq_nil_iff.mpr
        intro u hu
        simp only [decide_eq_true_eq]
        exact fun hc => ((List.pairwise_cons.mp hpw).1 u hu) hc.symm
      simp [List.filter, hnil]
    · have hne : ¬ (trip a = trip t) :=
        (List.pairwise_cons.mp hpw).1 t h1
      have ha : (decide (trip a = trip t)) = false := by simp [hne]
      simp only [List.filter, ha]
      exact filter_trip_single h1 (List.pairwise_cons.mp hpw).2

theorem synth_pivotCell (l : List SynthRec) (t : SynthRec)
    (hmem : t ∈ l) (hpw : l.Pairwise (fun a b => trip a ≠ trip b)) :
    pivotCell (l.map synthRow) 5 2 3 4
        (Cell.str t.region) (Cell.num t.year) (Cell.str t.metric)
      = some (Cell.num t.value) := by
  have hfm : (l.map synthRow).filter
      (matchKey 2 3 4 (Cell.str t.region) (Cell.num t.year) (Cell.str t.metric))
      = (l.filter (fun u => decide (trip u = trip t))).map synthRow := by
    rw [List.filter_map]
    apply congrArg
    apply List.filter_congr
    intro u _
    exact matchKey_synth t u
  rw [pivotCell, hfm, filter_trip_single hmem hpw]
  rfl

theorem synth_trip_mem (l : List SynthRec) (t : SynthRec)
    (hmem : t ∈ l) (hpw : l.Pairwise (fun a b => trip a ≠ trip b)) :
    (Cell.str t.region, Cell.num t.year, Cell.str t.metric)
      ∈ keptTriples (l.map synthRow) 5 2 3 4 := by
  apply List.mem_filter.mpr
  constructor
  · apply List.mem_dedup.mpr
    have hcand : candTriples (l.map synthRow) 2 3 4
        = l.map (fun u => (Cell.str u.region, Cell.num u.year, Cell.str u.metric)) := by
      rw [candTriples]
      rw [List.filter_eq_self.mpr]
      · rw [List.map_map]
        rfl
      · intro r hr
        obtain ⟨u, _, hueq⟩ := List.mem_map.mp hr
        rw [← hueq]
        rfl
    rw [hcand]
    exact List.mem_map.mpr ⟨t, hmem, rfl⟩
  · rw [synth_pivotCell l t hmem hpw]
    rfl

theorem synth_kept_isStr (l : List SynthRec) :
    ∀ a ∈ keptTriples (l.map synthRow) 5 2 3 4, Cell.isStr a.2.2 = true := by
  intro a ha
  have hc := keptTriples_subset_cand ha
  rw [candTriples] at hc
  obtain ⟨r, hr, hra⟩ := List.mem_map.mp hc
  have hrm := List.mem_filter.mp hr
  obtain ⟨u, _, hueq⟩ := List.mem_map.mp hrm.1
  rw [← hra, ← hueq]
  rfl

theorem metric_ne_index_names {m : String} (h : m ∈ metrics) :
    ¬ ("Province/territory") = m ∧ ¬ ("Data year") = m := by
  simp only [metrics, List.mem_cons, List.not_mem_nil, or_false] at h
  rcases h with h | h | h | h <;> subst h <;> exact ⟨by decide, by decide⟩

theorem getD_set_ne {α : Type} :
    ∀ (l : List α) (c r : Nat) (a d : α), ¬ c = r →
      (l.set c a).getD r d = l.getD r d
  | [], _, _, _, _, _ => rfl
  | _ :: _, 0, 0, _, _, h => absurd rfl h
  | _ :: _, 0, _ + 1, _, _, _ => rfl
  | _ :: _, _ + 1, 0, _, _, _ => rfl
  | _ :: xs, c + 1, r + 1, a, d, h =>
    getD_set_ne xs c r a d (fun hc => h (by rw [hc]))

theorem readRef_write_ne {σ : Store} {c r : Nat} {d : DataFrame}
    (h : ¬ c = r) : readRef (writeRef σ c d) r = readRef σ r := by
  simp only [readRef, writeRef]
  exact getD_set_ne _ _ _ _ _ h

theorem readRef_alloc {σ : Store} {d : DataFrame} {r : Nat}
    (h : r < σ.heap.length) : readRef (allocRef σ d).1 r = readRef σ r := by
  simp only [readRef, allocRef]
  exact List.getD_append _ _ _ _ h

theorem length_alloc (σ : Store) (d : DataFrame) :
    (allocRef σ d).1.heap.length = σ.heap.length + 1 := by
  simp [allocRef]

/-! ### Claim theorems -/

/-- Claim C1 (code bug): on a workbook in the expected layout with a single
row whose `Indicator` is "Hip Replacement", `extract_wait_times` returns a
`hip_replacement` table whose indicator cell is null, not "Hip
Replacement": the cleaning pass coerces every object-dtype column —
including the `Indicator` string column — with `pd.to_numeric(...,
errors='coerce')`, contradicting its own comment ("Convert wait time
columns to numeric") and the downstream string filters of the
visualizer. -/
theorem extract_wait_times_nullifies_indicator :
    ((extractWaitTimes fsC1).toOption.bind
        (fun m => lookupTable m ("hip_replacement"))).map
        (fun t => t.rows.map (fun r => getCell r 0))
      = some [Cell.null] ∧
    ¬ (Cell.null = Cell.str ("Hip Replacement")) := by
  exact ⟨by decide, by decide⟩

/-- Claim C4: in both cleaning passes, a cell of an object-dtype
(non-numeric) column holding a string that does not parse as a number is
replaced by null; the coercion is a total function and never fails. -/
theorem clean_coerces_unparsable_to_null
    (df : DataFrame) (i j : Nat) (s : String)
    (hcell : getCell ((dropColsAllNull (dropRowsAllNull df)).rows.getD i []) j
      = Cell.str s)
    (hj : j < (dropColsAllNull (dropRowsAllNull df)).cols.length)
    (hparse : parseNum s = none) :
    getCell ((cleanWaitTimesData df).rows.getD i []) j = Cell.null ∧
    getCell ((cleanSpendingData df).rows.getD i []) j = Cell.null := by
  have hmain : getCell ((coerceObjectCols (dropColsAllNull (dropRowsAllNull df))).rows.getD i []) j
      = Cell.null := by
    set d := dropColsAllNull (dropRowsAllNull df) with hd
    have hi : i < d.rows.length := by
      by_contra hge
      have : d.rows.getD i [] = [] := List.getD_eq_default _ _ (Nat.le_of_not_lt hge)
      rw [this] at hcell
      exact Cell.noConfusion hcell
    have hrow : (coerceObjectCols d).rows.getD i []
        = (List.range d.cols.length).map (fun k =>
            if colIsObject d.rows k then toNumericCell (getCell (d.rows.getD i []) k)
            else getCell (d.rows.getD i []) k) := by
      simp only [coerceObjectCols]
      rw [List.getD_eq_getElem?_getD, List.getElem?_map,
        List.getElem?_eq_getElem hi]
      simp only [Option.map_some', Option.getD_some]
      rw [List.getD_eq_getElem?_getD, List.getElem?_eq_getElem hi]
      rfl
    have hobj : colIsObject d.rows j = true := by
      apply List.any_eq_true.mpr
      refine ⟨d.rows.getD i [], ?_, ?_⟩
      · rw [List.getD_eq_getElem?_getD, List.getElem?_eq_getElem hi]
        exact List.getElem_mem _
      · rw [hcell]
        rfl
    rw [hrow]
    simp only [getCell]
    rw [List.getD_eq_getElem?_getD, List.getElem?_map,
      List.getElem?_range hj]
    simp only [Option.map_some', Option.getD_some, hobj, if_true]
    have hcell2 : (d.rows.getD i []).getD j Cell.null = Cell.str s := hcell
    rw [hcell2]
    simp [toNumericCell, hparse]
  exact ⟨hmain, hmain⟩

/-- Witness for C4 at a concrete one-cell table holding the unparsable
string "abc". -/
theorem clean_coerces_unparsable_to_null_witness :
    (getCell ((dropColsAllNull (dropRowsAllNull
        { cols := ["A"], rows := [[Cell.str ("abc")]] })).rows.getD 0 []) 0
      = Cell.str ("abc")) ∧
    (0 < (dropColsAllNull (dropRowsAllNull
        { cols := ["A"], rows := [[Cell.str ("abc")]] })).cols.length) ∧
    (parseNum ("abc") = none) ∧
    getCell ((cleanWaitTimesData
        { cols := ["A"], rows := [[Cell.str ("abc")]] }).rows.getD 0 []) 0
      = Cell.null ∧
    getCell ((cleanSpendingData
        { cols := ["A"], rows := [[Cell.str ("abc")]] }).rows.getD 0 []) 0
      = Cell.null := by
  refine ⟨by decide, by decide, by decide, ?_⟩
  exact clean_coerces_unparsable_to_null
    { cols := ["A"], rows := [[Cell.str ("abc")]] } 0 0 ("abc")
    (by decide) (by decide) (by decide)

/-- Claim C9: the extract-then-pivot pipeline is deterministic — two runs
on the same workbook contents produce the same wide table. -/
theorem pipeline_deterministic (fs : FileSystem) (procedure : String)
    (w1 w2 : DataFrame)
    (h1 : runPipeline fs procedure = Except.ok w1)
    (h2 : runPipeline fs procedure = Except.ok w2) : w1 = w2 := by
  rw [h1] at h2
  exact Except.ok.inj h2

/-- Witness for C9: a concrete successful pipeline run, compared with
itself. -/
theorem pipeline_deterministic_witness :
    (runPipeline fsC1 ("hip_replacement")
      = Except.ok { cols := ["Province/territory", "Data year"], rows := [] }) ∧
    ({ cols := ["Province/territory", "Data year"], rows := [] } : DataFrame)
      = { cols := ["Province/territory", "Data year"], rows := [] } := by
  refine ⟨by decide, ?_⟩
  exact pipeline_deterministic fsC1 ("hip_replacement") _ _ (by decide) (by decide)

/-- Claim C10: neither cleaning pass nor the pivot step mutates its input
DataFrame object: each operates on a `.copy()` (or builds fresh frames),
so the caller's object is unchanged after the call. -/
theorem operations_do_not_mutate_input (σ : Store) (r : Nat)
    (h : r < σ.heap.length) :
    readRef (cleanWaitTimesDataSt σ r).1 r = readRef σ r ∧
    readRef (cleanSpendingDataSt σ r).1 r = readRef σ r ∧
    readRef (prepareProvincialDataSt σ r).1 r = readRef σ r := by
  have hne : ¬ ((allocRef σ (readRef σ r)).2 = r) := by
    have : (allocRef σ (readRef σ r)).2 = σ.heap.length := rfl
    rw [this]
    exact ne_of_gt h
  refine ⟨?_, ?_, ?_⟩
  · simp only [cleanWaitTimesDataSt]
    rw [readRef_write_ne hne, readRef_write_ne hne, readRef_write_ne hne,
      readRef_alloc h]
  · simp only [cleanSpendingDataSt]
    rw [readRef_write_ne hne, readRef_write_ne hne, readRef_write_ne hne,
      readRef_alloc h]
  · rcases hcol : colIdx (readRef σ r) ("Reporting level") with _ | ir
    · simp only [prepareProvincialDataSt, hcol]
    · simp only [prepareProvincialDataSt, hcol]
      rcases hp : pivotTableFirst
          (readRef (allocRef σ { readRef σ r with rows := provincialRows (readRef σ r) ir }).1
            (allocRef σ { readRef σ r with rows := provincialRows (readRef σ r) ir }).2)
          ("Indicator result") ("Province/territory") ("Data year") ("Metric")
        with e | w
      · simp only [hp]
        exact readRef_alloc h
      · simp only [hp]
        have h2 : r < (allocRef σ { readRef σ r with
            rows := provincialRows (readRef σ r) ir }).1.heap.length := by
          rw [length_alloc]
          exact Nat.lt_succ_of_lt h
        rw [readRef_alloc h2, readRef_alloc h]

/-- Claim C2 counterexample: on duplicate (region, year, metric) records
whose first entry has a null value, the pivot cell holds the SECOND
record's value 200 — `aggfunc='first'` takes the first non-null value,
not the value of the first record in row order. -/
theorem prepare_first_record_cex :
    prepareProvincialData [(("hip_replacement"), dupTable)] ("hip_replacement") =
      Except.ok { cols := ["Province/territory", "Data year", "Volume"],
                  rows := [[Cell.str ("Ontario"), Cell.num 2020, Cell.num 200]] } ∧
    getCell (dupTable.rows.getD 0 []) 5 = Cell.null ∧
    ¬ (Cell.num 200 = Cell.null) := by
  exact ⟨by decide, by decide, by decide⟩

/-- Claim C2 (amended): the pivot keeps only records whose reporting level
is "Provincial"; each wide cell holds the first NON-NULL value, in
original row order, among the kept records matching that (region, year,
metric) — so among duplicates the first with a non-null value wins, never
an average, never an error; and the output has exactly one row for each
distinct (region, year) pair that appears in some kept group with
non-null keys and a non-null aggregated value (and no row otherwise). -/
theorem prepare_provincial_first_nonnull_semantics
    (data : List (String × DataFrame)) (procedure : String) (df : DataFrame)
    (ir iv i1 i2 ic : Nat)
    (hfind : lookupTable data procedure = some df)
    (hir : colIdx df ("Reporting level") = some ir)
    (hiv : colIdx df ("Indicator result") = some iv)
    (hi1 : colIdx df ("Province/territory") = some i1)
    (hi2 : colIdx df ("Data year") = some i2)
    (hic : colIdx df ("Metric") = some ic) :
    ∃ w, prepareProvincialData data procedure = Except.ok w ∧
      (∀ k1 k2 s,
        (k1, k2, Cell.str s) ∈ keptTriples (provincialRows df ir) iv i1 i2 ic →
        (∀ t ∈ keptTriples (provincialRows df ir) iv i1 i2 ic,
          Cell.isStr t.2.2 = true) →
        ¬ ("Province/territory") = s → ¬ ("Data year") = s →
        wideLookup w k1 k2 s =
          firstNonNull (((provincialRows df ir).filter
            (matchKey i1 i2 ic k1 k2 (Cell.str s))).map (fun r => getCell r iv))) ∧
      (∀ k1 k2, w.rows.countP (fun r => getCell r 0 == k1 && getCell r 1 == k2) =
        if (k1, k2) ∈ (keptTriples (provincialRows df ir) iv i1 i2 ic).map
            (fun t => (t.1, t.2.1)) then 1 else 0) := by
  refine ⟨pivotBuild (provincialRows df ir) iv i1 i2 ic
      ("Province/territory") ("Data year"),
    prepare_eq_pivotBuild data procedure df ir iv i1 i2 ic
      hfind hir hiv hi1 hi2 hic, ?_, ?_⟩
  · intro k1 k2 s hks hstr hn1 hn2
    have hk : (k1, k2) ∈ rowKeys (provincialRows df ir) iv i1 i2 ic :=
      mem_rowKeys_iff.mpr ⟨(k1, k2, Cell.str s), hks, rfl⟩
    have hms : Cell.str s ∈ metricCells (provincialRows df ir) iv i1 i2 ic :=
      mem_metricCells_iff.mpr ⟨(k1, k2, Cell.str s), hks, rfl⟩
    rw [wideLookup_pivotBuild _ iv i1 i2 ic _ _ k1 k2 s hk hms hstr hn1 hn2]
    obtain ⟨v, hv⟩ := Option.isSome_iff_exists.mp (keptTriples_isSome hks)
    rw [hv]
    exact hv.symm
  · intro k1 k2
    have hcount := countP_pivotRow
      (metricCells (provincialRows df ir) iv i1 i2 ic)
      (fun k m =>
        (pivotCell (provincialRows df ir) iv i1 i2 ic k.1 k.2 m).getD Cell.null)
      k1 k2
      (nodup_rowKeys (provincialRows df ir) iv i1 i2 ic)
    simp only [pivotBuild]
    rw [hcount]
    have hiff : ((k1, k2) ∈ rowKeys (provincialRows df ir) iv i1 i2 ic)
        ↔ (k1, k2) ∈ (keptTriples (provincialRows df ir) iv i1 i2 ic).map
            (fun t => (t.1, t.2.1)) := by
      rw [rowKeys]
      exact mem_sortLe.trans List.mem_dedup
    by_cases hin : (k1, k2) ∈ (keptTriples (provincialRows df ir) iv i1 i2 ic).map
        (fun t => (t.1, t.2.1))
    · rw [if_pos (hiff.mpr hin), if_pos hin]
    · rw [if_neg (fun hc => hin (hiff.mp hc)), if_neg hin]

/-- Witness for C2 at the spec's duplicate scenario (values 100 then 200):
the kept cell is 100. -/
theorem prepare_provincial_first_nonnull_semantics_witness :
    (lookupTable [(("hip_replacement"), dupTable100)] ("hip_replacement")
      = some dupTable100) ∧
    (colIdx dupTable100 ("Reporting level") = some 1) ∧
    (∃ w, prepareProvincialData [(("hip_replacement"), dupTable100)]
        ("hip_replacement") = Except.ok w ∧
      wideLookup w (Cell.str ("Ontario")) (Cell.num 2020) ("Volume")
        = some (Cell.num 100)) := by
  refine ⟨by decide, by decide, ?_⟩
  obtain ⟨w, hw, hcell, hcount⟩ := prepare_provincial_first_nonnull_semantics
    [(("hip_replacement"), dupTable100)] ("hip_replacement") dupTable100
    1 5 2 3 4 (by decide) (by decide) (by decide) (by decide) (by decide) (by decide)
  refine ⟨w, hw, ?_⟩
  rw [hcell (Cell.str ("Ontario")) (Cell.num 2020) ("Volume")
    (by decide) (by decide) (by decide) (by decide)]
  decide

/-- Witness for C10 at a one-object store. -/
theorem operations_do_not_mutate_input_witness :
    (0 < ({ heap := [dupTable] } : Store).heap.length) ∧
    (readRef (cleanWaitTimesDataSt { heap := [dupTable] } 0).1 0
      = readRef { heap := [dupTable] } 0 ∧
    readRef (cleanSpendingDataSt { heap := [dupTable] } 0).1 0
      = readRef { heap := [dupTable] } 0 ∧
    readRef (prepareProvincialDataSt { heap := [dupTable] } 0).1 0
      = readRef { heap := [dupTable] } 0) := by
  exact ⟨by decide, operations_do_not_mutate_input { heap := [dupTable] } 0 (by decide)⟩

/-- Claim C3 counterexample: a record whose metric "Bogus Metric" is
outside the closed metric set still produces a column in the pivoted
output, while the closed-set metric "Volume", having no record, produces
no column at all (not a null-filled one). -/
theorem pivot_closed_metric_set_cex :
    prepareProvincialData [(("hip_replacement"), bogusTable)] ("hip_replacement") =
      Except.ok { cols := ["Province/territory", "Data year", "Bogus Metric"],
                  rows := [[Cell.str ("Ontario"), Cell.num 2020, Cell.num 5]] } ∧
    ¬ (("Bogus Metric") ∈ metrics) ∧
    ¬ (("Volume") ∈ ["Province/territory", "Data year", "Bogus Metric"]) ∧
    ("Volume") ∈ metrics := by
  exact ⟨by decide, by decide, by decide, by decide⟩

/-- Claim C3 (amended): the metric columns of the wide table are exactly
the metric values that occur among the kept records in some group with
non-null keys and a non-null aggregated value — whether or not they
belong to the closed metric set; a metric with no such record yields no
column; and for the columns that do exist, a (region, year) key with no
non-null matching record gets a null cell. -/
theorem pivot_columns_from_present_metrics
    (data : List (String × DataFrame)) (procedure : String) (df : DataFrame)
    (ir iv i1 i2 ic : Nat)
    (hfind : lookupTable data procedure = some df)
    (hir : colIdx df ("Reporting level") = some ir)
    (hiv : colIdx df ("Indicator result") = some iv)
    (hi1 : colIdx df ("Province/territory") = some i1)
    (hi2 : colIdx df ("Data year") = some i2)
    (hic : colIdx df ("Metric") = some ic)
    (hstr : ∀ t ∈ keptTriples (provincialRows df ir) iv i1 i2 ic,
      Cell.isStr t.2.2 = true) :
    ∃ w, prepareProvincialData data procedure = Except.ok w ∧
      (∀ s, s ∈ w.cols.drop 2 ↔
        ∃ k1 k2, (k1, k2, Cell.str s) ∈ keptTriples (provincialRows df ir) iv i1 i2 ic) ∧
      (∀ k1 k2 s,
        (∃ m, (k1, k2, m) ∈ keptTriples (provincialRows df ir) iv i1 i2 ic) →
        (∃ j1 j2, (j1, j2, Cell.str s) ∈ keptTriples (provincialRows df ir) iv i1 i2 ic) →
        ¬ ("Province/territory") = s → ¬ ("Data year") = s →
        firstNonNull (((provincialRows df ir).filter
          (matchKey i1 i2 ic k1 k2 (Cell.str s))).map (fun r => getCell r iv)) = none →
        wideLookup w k1 k2 s = some Cell.null) := by
  refine ⟨pivotBuild (provincialRows df ir) iv i1 i2 ic
      ("Province/territory") ("Data year"),
    prepare_eq_pivotBuild data procedure df ir iv i1 i2 ic
      hfind hir hiv hi1 hi2 hic, ?_, ?_⟩
  · intro s
    have hdrop : (pivotBuild (provincialRows df ir) iv i1 i2 ic
        ("Province/territory") ("Data year")).cols.drop 2
        = (metricCells (provincialRows df ir) iv i1 i2 ic).map headerName := rfl
    rw [hdrop]
    constructor
    · intro hmem
      obtain ⟨a, ha, has⟩ := List.mem_map.mp hmem
      have hstra := metricCells_isStr hstr a ha
      cases a with
      | str t =>
        have hts : t = s := has
        subst hts
        obtain ⟨u, hu, hut⟩ := mem_metricCells_iff.mp ha
        obtain ⟨u1, u2, u3⟩ := u
        simp only at hut
        rw [hut] at hu
        exact ⟨u1, u2, hu⟩
      | num v => exact absurd hstra (by simp [Cell.isStr])
      | null => exact absurd hstra (by simp [Cell.isStr])
    · rintro ⟨k1, k2, hk⟩
      exact List.mem_map.mpr
        ⟨Cell.str s, mem_metricCells_iff.mpr ⟨(k1, k2, Cell.str s), hk, rfl⟩, rfl⟩
  · rintro k1 k2 s ⟨m, hm⟩ ⟨j1, j2, hj⟩ hn1 hn2 hnone
    have hk : (k1, k2) ∈ rowKeys (provincialRows df ir) iv i1 i2 ic :=
      mem_rowKeys_iff.mpr ⟨(k1, k2, m), hm, rfl⟩
    have hms : Cell.str s ∈ metricCells (provincialRows df ir) iv i1 i2 ic :=
      mem_metricCells_iff.mpr ⟨(j1, j2, Cell.str s), hj, rfl⟩
    rw [wideLookup_pivotBuild _ iv i1 i2 ic _ _ k1 k2 s hk hms hstr hn1 hn2]
    have hcell : pivotCell (provincialRows df ir) iv i1 i2 ic k1 k2 (Cell.str s)
        = none := hnone
    rw [hcell]
    rfl

/-- Witness for C3: with records for (Ontario, Volume) and (Quebec, 50th
Percentile), "Volume" is a column and Ontario's "50th Percentile" cell is
null. -/
theorem pivot_columns_from_present_metrics_witness :
    (lookupTable [(("hip_replacement"), twoTable)] ("hip_replacement")
      = some twoTable) ∧
    (∃ w, prepareProvincialData [(("hip_replacement"), twoTable)]
        ("hip_replacement") = Except.ok w ∧
      ("Volume") ∈ w.cols.drop 2 ∧
      wideLookup w (Cell.str ("Ontario")) (Cell.num 2020) ("50th Percentile")
        = some Cell.null) := by
  refine ⟨by decide, ?_⟩
  obtain ⟨w, hw, hcols, hnull⟩ := pivot_columns_from_present_metrics
    [(("hip_replacement"), twoTable)] ("hip_replacement") twoTable
    1 5 2 3 4 (by decide) (by decide) (by decide) (by decide) (by decide)
    (by decide) (by decide)
  refine ⟨w, hw, ?_, ?_⟩
  · exact (hcols ("Volume")).mpr ⟨Cell.str ("Ontario"), Cell.num 2020, by decide⟩
  · exact hnull (Cell.str ("Ontario")) (Cell.num 2020) ("50th Percentile")
      ⟨Cell.str ("Volume"), by decide⟩
      ⟨Cell.str ("Quebec"), Cell.num 2020, by decide⟩
      (by decide) (by decide) (by decide)

/-- Claim C7: pivoting a synthetic Provincial long table with at most one
record per (region, year, metric) — metrics drawn from the closed set —
reproduces every input value exactly in its corresponding wide cell. -/
theorem pivot_round_trip (l : List SynthRec)
    (hpw : l.Pairwise (fun a b => trip a ≠ trip b))
    (hmet : ∀ t ∈ l, t.metric ∈ metrics) :
    ∃ w, prepareProvincialData [(("hip_replacement"), synthTable l)]
        ("hip_replacement") = Except.ok w ∧
      ∀ t ∈ l, wideLookup w (Cell.str t.region) (Cell.num t.year) t.metric
        = some (Cell.num t.value) := by
  have hprep : prepareProvincialData [(("hip_replacement"), synthTable l)]
      ("hip_replacement")
      = Except.ok (pivotBuild (l.map synthRow) 5 2 3 4
          ("Province/territory") ("Data year")) := by
    have h0 := prepare_eq_pivotBuild [(("hip_replacement"), synthTable l)]
      ("hip_replacement") (synthTable l) 1 5 2 3 4 rfl rfl rfl rfl rfl rfl
    rw [h0, provincialRows_synth]
  refine ⟨_, hprep, ?_⟩
  intro t hmem
  obtain ⟨hn1, hn2⟩ := metric_ne_index_names (hmet t hmem)
  have hks := synth_trip_mem l t hmem hpw
  have hk : (Cell.str t.region, Cell.num t.year) ∈ rowKeys (l.map synthRow) 5 2 3 4 :=
    mem_rowKeys_iff.mpr ⟨_, hks, rfl⟩
  have hms : Cell.str t.metric ∈ metricCells (l.map synthRow) 5 2 3 4 :=
    mem_metricCells_iff.mpr ⟨_, hks, rfl⟩
  rw [wideLookup_pivotBuild _ 5 2 3 4 _ _ _ _ t.metric hk hms
    (synth_kept_isStr l) hn1 hn2]
  rw [synth_pivotCell l t hmem hpw]
  rfl

/-- Witness for C7 at a one-record synthetic table. -/
theorem pivot_round_trip_witness :
    (([{ region := "Ontario", year := 2020, metric := "Volume", value := 100 }] :
        List SynthRec).Pairwise (fun a b => trip a ≠ trip b)) ∧
    (∀ t ∈ ([{ region := "Ontario", year := 2020, metric := "Volume", value := 100 }] :
        List SynthRec), t.metric ∈ metrics) ∧
    (∃ w, prepareProvincialData
        [(("hip_replacement"),
          synthTable [{ region := "Ontario", year := 2020, metric := "Volume", value := 100 }])]
        ("hip_replacement") = Except.ok w ∧
      ∀ t ∈ ([{ region := "Ontario", year := 2020, metric := "Volume", value := 100 }] :
          List SynthRec),
        wideLookup w (Cell.str t.region) (Cell.num t.year) t.metric
          = some (Cell.num t.value)) := by
  refine ⟨List.pairwise_singleton _ _, by decide, ?_⟩
  exact pivot_round_trip
    [{ region := "Ontario", year := 2020, metric := "Volume", value := 100 }]
    (List.pairwise_singleton _ _) (by decide)

/-- Claim C5 counterexample: on two 14-sheet spending workbooks that agree
on the first sheet but differ on every sheet at indices 2..13,
`extract_hospital_spending` returns the same result — the cleaned FIRST
sheet — so it does not read sheets 2..13 and does not return a
sheet-name-keyed mapping of 12 tables. -/
theorem extract_hospital_spending_sheets_2_13_cex :
    extractHospitalSpending fsSpendA = extractHospitalSpending fsSpendB ∧
    extractHospitalSpending fsSpendA
      = Except.ok { cols := ["Col"], rows := [[Cell.num 7]] } ∧
    wbSpendA.sheets.length = 14 ∧
    wbSpendA.names = wbSpendB.names ∧
    (((List.range 14).drop 2).all (fun j =>
      !(wbSpendA.sheets.getD j { grid := [] }
        == wbSpendB.sheets.getD j { grid := [] }))) = true := by
  exact ⟨rfl, by decide, by decide, by decide, by decide⟩

/-- Claim C5 (amended): `extract_hospital_spending` reads the spending
workbook with the pandas default sheet selection — the first sheet only,
header row 0, no row cap, no column restriction — applies the spending
cleaning pass, and returns that single cleaned table; its result depends
only on the first sheet, so no out-of-range sheet index can arise. -/
theorem extract_hospital_spending_first_sheet_only
    (fs fs2 : FileSystem) (wb wb2 : Workbook) (s : RawSheet)
    (r r2 : List RawSheet)
    (h1 : fs hospitalSpendingFile = some wb) (hs1 : wb.sheets = s :: r)
    (h2 : fs2 hospitalSpendingFile = some wb2) (hs2 : wb2.sheets = s :: r2) :
    extractHospitalSpending fs = Except.ok (cleanSpendingData (readSheet s 0 none)) ∧
    extractHospitalSpending fs = extractHospitalSpending fs2 := by
  have e1 : extractHospitalSpending fs
      = Except.ok (cleanSpendingData (readSheet s 0 none)) := by
    simp only [extractHospitalSpending, readExcelFile, h1, hs1]
  have e2 : extractHospitalSpending fs2
      = Except.ok (cleanSpendingData (readSheet s 0 none)) := by
    simp only [extractHospitalSpending, readExcelFile, h2, hs2]
  exact ⟨e1, e1.trans e2.symm⟩

/-- Witness for C5 at the concrete 14-sheet workbooks. -/
theorem extract_hospital_spending_first_sheet_only_witness :
    (fsSpendA hospitalSpendingFile = some wbSpendA) ∧
    (fsSpendB hospitalSpendingFile = some wbSpendB) ∧
    (wbSpendA.sheets = spendSheet 7 :: wbSpendA.sheets.drop 1) ∧
    (wbSpendB.sheets = spendSheet 7 :: wbSpendB.sheets.drop 1) ∧
    (extractHospitalSpending fsSpendA
        = Except.ok (cleanSpendingData (readSheet (spendSheet 7) 0 none)) ∧
      extractHospitalSpending fsSpendA = extractHospitalSpending fsSpendB) := by
  refine ⟨by decide, by decide, by decide, by decide, ?_⟩
  exact extract_hospital_spending_first_sheet_only fsSpendA fsSpendB
    wbSpendA wbSpendB (spendSheet 7) (wbSpendA.sheets.drop 1) (wbSpendB.sheets.drop 1)
    (by decide) (by decide) (by decide) (by decide)

/-- Claim C6: a missing file fails with the file-not-found
(`DataSourceError`) error and a missing sheet with the sheet-format error;
`extract_wait_times` re-raises the reader's error unmodified; and the
entry point catches any pipeline error at top level, rendering the single
message "An error occurred: " followed by the error text, with no result
produced. -/
theorem errors_propagate_to_entry_point :
    (∀ (fs : FileSystem) (fn : String) (sn : Option String) (h : Nat)
        (u : Option Nat),
      fs fn = none →
      readExcelFile fs fn sn h u
        = Except.error (AppError.dataSource ("File not found: " ++ fn))) ∧
    (∀ (fs : FileSystem) (fn nm : String) (h : Nat) (u : Option Nat)
        (wb : Workbook),
      fs fn = some wb → ¬ nm = "" →
      wb.names.findIdx? (fun c => c == nm) = none →
      readExcelFile fs fn (some nm) h u
        = Except.error (AppError.sheetFormat
            ("Worksheet named " ++ nm ++ " not found"))) ∧
    (∀ (fs : FileSystem) (e : AppError),
      readExcelFile fs waitTimesFile (some waitSheetName) 2 (some 8)
        = Except.error e →
      extractWaitTimes fs = Except.error e) ∧
    (∀ (fs : FileSystem) (procedure : String) (e : AppError),
      extractWaitTimes fs = Except.error e →
      appMain fs procedure = Sum.inl ("An error occurred: " ++ e.msg) ∧
      ∀ w, ¬ appMain fs procedure = Sum.inr w) := by
  refine ⟨?_, ?_, ?_, ?_⟩
  · intro fs fn sn h u hf
    simp only [readExcelFile, hf]
  · intro fs fn nm h u wb hf hnm hidx
    simp only [readExcelFile, hf, if_neg hnm, hidx]
  · intro fs e hr
    simp only [extractWaitTimes, hr]
  · intro fs procedure e he
    have hmain : appMain fs procedure
        = Sum.inl ("An error occurred: " ++ e.msg) := by
      simp only [appMain, runPipeline, he]
    refine ⟨hmain, ?_⟩
    intro w hc
    rw [hmain] at hc
    exact Sum.noConfusion hc

/-- Witness for C6: a missing asset directory and a workbook without the
wait-times sheet, pushed through to the entry point message. -/
theorem errors_propagate_to_entry_point_witness :
    (fsNone waitTimesFile = none) ∧
    (readExcelFile fsNone waitTimesFile (some waitSheetName) 2 (some 8)
      = Except.error (AppError.dataSource ("File not found: " ++ waitTimesFile))) ∧
    (fsNoSheet waitTimesFile = some wbNoSheet) ∧
    (readExcelFile fsNoSheet waitTimesFile (some waitSheetName) 2 (some 8)
      = Except.error (AppError.sheetFormat
          ("Worksheet named " ++ waitSheetName ++ " not found"))) ∧
    (appMain fsNone ("hip_replacement")
      = Sum.inl ("An error occurred: " ++ ("File not found: " ++ waitTimesFile))) := by
  refine ⟨rfl, ?_, by decide, ?_, ?_⟩
  · exact errors_propagate_to_entry_point.1 fsNone waitTimesFile
      (some waitSheetName) 2 (some 8) rfl
  · exact errors_propagate_to_entry_point.2.1 fsNoSheet waitTimesFile
      waitSheetName 2 (some 8) wbNoSheet (by decide) (by decide) (by decide)
  · have hr := errors_propagate_to_entry_point.1 fsNone waitTimesFile
      (some waitSheetName) 2 (some 8) rfl
    have he := errors_propagate_to_entry_point.2.2.1 fsNone
      (AppError.dataSource ("File not found: " ++ waitTimesFile)) hr
    exact (errors_propagate_to_entry_point.2.2.2 fsNone
      ("hip_replacement") _ he).1

theorem clean_empty_rows (cols : List String) :
    cleanWaitTimesData { cols := cols, rows := [] } = emptyFrame := by
  have hdrop : dropRowsAllNull { cols := cols, rows := ([] : List (List Cell)) }
      = { cols := cols, rows := ([] : List (List Cell)) } := rfl
  have hk : keepCols { cols := cols, rows := ([] : List (List Cell)) } = [] := by
    apply List.filter_eq_nil_iff.mpr
    intro j hj
    simp [colAllNull]
  rw [cleanWaitTimesData, hdrop]
  rw [dropColsAllNull, hk]
  rfl

/-- Claim C8 counterexample: on a workbook whose wait-times sheet has a
header but zero data rows, the extract-then-pivot pipeline does NOT yield
an empty wide table — it fails: the cleaning pass drops every all-null
column of the empty frame, and the pivot step then raises a `KeyError`
for the missing "Reporting level" column. -/
theorem empty_sheet_pipeline_cex :
    runPipeline fsC8 ("hip_replacement")
      = Except.error (AppError.keyError ("Reporting level")) ∧
    ¬ (∃ w, runPipeline fsC8 ("hip_replacement") = Except.ok w) := by
  refine ⟨by decide, ?_⟩
  rintro ⟨w, hw⟩
  have h0 : runPipeline fsC8 ("hip_replacement")
      = Except.error (AppError.keyError ("Reporting level")) := by decide
  rw [h0] at hw
  exact Except.noConfusion hw

/-- Claim C8 (amended): when the wait-times sheet reads as a frame with
the expected header but zero data rows, extraction succeeds with two
fully empty tables (all columns dropped by the cleaning pass), and the
pivot step then fails with a `KeyError` on "Reporting level" instead of
returning a zero-row wide table. -/
theorem empty_sheet_pipeline_errors
    (fs : FileSystem) (df : DataFrame) (i : Nat)
    (hread : readExcelFile fs waitTimesFile (some waitSheetName) 2 (some 8)
      = Except.ok df)
    (hrows : df.rows = [])
    (hind : colIdx df ("Indicator") = some i) :
    extractWaitTimes fs
      = Except.ok [(("hip_replacement"), emptyFrame),
                   (("knee_replacement"), emptyFrame)] ∧
    runPipeline fs ("hip_replacement")
      = Except.error (AppError.keyError ("Reporting level")) := by
  have hex : extractWaitTimes fs
      = Except.ok [(("hip_replacement"), emptyFrame),
                   (("knee_replacement"), emptyFrame)] := by
    simp only [extractWaitTimes, hread, hind, hrows, List.filter_nil]
    rw [show ({ df with rows := ([] : List (List Cell)) } : DataFrame)
        = { cols := df.cols, rows := ([] : List (List Cell)) } from rfl]
    rw [clean_empty_rows]
  refine ⟨hex, ?_⟩
  simp only [runPipeline, hex]
  decide

/-- Witness for C8 at the concrete header-only workbook. -/
theorem empty_sheet_pipeline_errors_witness :
    (readExcelFile fsC8 waitTimesFile (some waitSheetName) 2 (some 8)
      = Except.ok { cols := ["Indicator", "Reporting level", "Province/territory",
                             "Data year", "Metric", "Indicator result",
                             "Unit of measurement", "Note"], rows := [] }) ∧
    (extractWaitTimes fsC8
        = Except.ok [(("hip_replacement"), emptyFrame),
                     (("knee_replacement"), emptyFrame)] ∧
      runPipeline fsC8 ("hip_replacement")
        = Except.error (AppError.keyError ("Reporting level"))) := by
  refine ⟨by decide, ?_⟩
  exact empty_sheet_pipeline_errors fsC8
    { cols := ["Indicator", "Reporting level", "Province/territory",
               "Data year", "Metric", "Indicator result",
               "Unit of measurement", "Note"], rows := [] }
    0 (by decide) rfl (by decide)

end CIHI
